import Mathlib

/-!
Verification of the RASFF dashboard normalization core (M00N69/RASFFPORTAL).

The definitions below are a shallow embedding of the Python sources:
rasff.py (category mapping, weekly download pipeline, dashboard update,
statistical analysis) and page/RASFFPortalLab.py (upload-page column check).
Pandas rows are modelled as association lists from column names to optional
string cells; DataFrames as lists of rows.  Fallible effects (HTTP fetches)
are modelled by an oracle parameter.  Parts of the pipeline the repository
describes but whose code is not present in the sources (the fuzzy hazard
matcher and the country standardization step) are modelled from the spec and
are marked as such in their doc comments.
-/

namespace Rasff

/-- Table from rasff.py lines 88-126: product_category_mapping, an association
of lower-case raw product-category strings to a (specific label, group label)
pair.  Modelled as an association list; keys are pairwise distinct, matching
the Python dict literal. -/
def product_category_mapping : List (String × String × String) := [
  ("alcoholic beverages", "Alcoholic Beverages", "Beverages"),
  ("animal by-products", "Animal By-products", "Animal Products"),
  ("bivalve molluscs and products thereof", "Bivalve Molluscs", "Seafood"),
  ("cephalopods and products thereof", "Cephalopods", "Seafood"),
  ("cereals and bakery products", "Cereals and Bakery Products", "Grains and Bakery"),
  ("cocoa and cocoa preparations, coffee and tea", "Cocoa, Coffee, and Tea", "Beverages"),
  ("compound feeds", "Compound Feeds", "Animal Feed"),
  ("confectionery", "Confectionery", "Grains and Bakery"),
  ("crustaceans and products thereof", "Crustaceans", "Seafood"),
  ("dietetic foods, food supplements and fortified foods", "Dietetic Foods and Supplements", "Specialty Foods"),
  ("eggs and egg products", "Eggs and Egg Products", "Animal Products"),
  ("fats and oils", "Fats and Oils", "Fats and Oils"),
  ("feed additives", "Feed Additives", "Animal Feed"),
  ("feed materials", "Feed Materials", "Animal Feed"),
  ("feed premixtures", "Feed Premixtures", "Animal Feed"),
  ("fish and fish products", "Fish and Fish Products", "Seafood"),
  ("food additives and flavourings", "Food Additives and Flavourings", "Additives"),
  ("food contact materials", "Food Contact Materials", "Packaging"),
  ("fruits and vegetables", "Fruits and Vegetables", "Fruits and Vegetables"),
  ("gastropods", "Gastropods", "Seafood"),
  ("herbs and spices", "Herbs and Spices", "Spices"),
  ("honey and royal jelly", "Honey and Royal Jelly", "Specialty Foods"),
  ("ices and desserts", "Ices and Desserts", "Grains and Bakery"),
  ("live animals", "Live Animals", "Animal Products"),
  ("meat and meat products (other than poultry)", "Meat (Non-Poultry)", "Meat Products"),
  ("milk and milk products", "Milk and Milk Products", "Dairy"),
  ("natural mineral waters", "Natural Mineral Waters", "Beverages"),
  ("non-alcoholic beverages", "Non-Alcoholic Beverages", "Beverages"),
  ("nuts, nut products and seeds", "Nuts and Seeds", "Seeds and Nuts"),
  ("other food product / mixed", "Mixed Food Products", "Other"),
  ("pet food", "Pet Food", "Animal Feed"),
  ("plant protection products", "Plant Protection Products", "Additives"),
  ("poultry meat and poultry meat products", "Poultry Meat", "Meat Products"),
  ("prepared dishes and snacks", "Prepared Dishes and Snacks", "Prepared Foods"),
  ("soups, broths, sauces and condiments", "Soups, Broths, Sauces", "Prepared Foods"),
  ("water for human consumption (other)", "Water (Human Consumption)", "Beverages"),
  ("wine", "Wine", "Beverages")]

/-- Table from rasff.py lines 127-158: hazard_category_mapping.  Note that the
keys "GMO / novel food" and "TSEs" contain upper-case letters as written in the
source. -/
def hazard_category_mapping : List (String × String × String) := [
  ("GMO / novel food", "GMO / Novel Food", "Food Composition"),
  ("TSEs", "Transmissible Spongiform Encephalopathies (TSEs)", "Biological Hazard"),
  ("adulteration / fraud", "Adulteration / Fraud", "Food Fraud"),
  ("allergens", "Allergens", "Biological Hazard"),
  ("biological contaminants", "Biological Contaminants", "Biological Hazard"),
  ("biotoxins (other)", "Biotoxins", "Biological Hazard"),
  ("chemical contamination (other)", "Chemical Contamination", "Chemical Hazard"),
  ("composition", "Composition", "Food Composition"),
  ("environmental pollutants", "Environmental Pollutants", "Chemical Hazard"),
  ("feed additives", "Feed Additives", "Chemical Hazard"),
  ("food additives and flavourings", "Food Additives and Flavourings", "Additives"),
  ("foreign bodies", "Foreign Bodies", "Physical Hazard"),
  ("genetically modified", "Genetically Modified", "Food Composition"),
  ("heavy metals", "Heavy Metals", "Chemical Hazard"),
  ("industrial contaminants", "Industrial Contaminants", "Chemical Hazard"),
  ("labelling absent/incomplete/incorrect", "Labelling Issues", "Food Fraud"),
  ("migration", "Migration", "Chemical Hazard"),
  ("mycotoxins", "Mycotoxins", "Biological Hazard"),
  ("natural toxins (other)", "Natural Toxins", "Biological Hazard"),
  ("non-pathogenic micro-organisms", "Non-Pathogenic Micro-organisms", "Biological Hazard"),
  ("not determined (other)", "Not Determined", "Other"),
  ("novel food", "Novel Food", "Food Composition"),
  ("organoleptic aspects", "Organoleptic Aspects", "Other"),
  ("packaging defective / incorrect", "Packaging Issues", "Physical Hazard"),
  ("parasitic infestation", "Parasitic Infestation", "Biological Hazard"),
  ("pathogenic micro-organisms", "Pathogenic Micro-organisms", "Biological Hazard"),
  ("pesticide residues", "Pesticide Residues", "Pesticide Hazard"),
  ("poor or insufficient controls", "Insufficient Controls", "Food Fraud"),
  ("radiation", "Radiation", "Physical Hazard"),
  ("residues of veterinary medicinal", "Veterinary Medicinal Residues", "Chemical Hazard")]

/-- Python dict.get with default: first matching key, or the default pair
("Unknown", "Unknown") on miss (rasff.py lines 162 and 167). -/
def dictGet (table : List (String × String × String)) (key : String) : String × String :=
  (table.lookup key).getD ("Unknown", "Unknown")

/-- ASCII lower-casing of one character, the A-Z range mapped onto a-z. -/
def lowerChar (c : Char) : Char :=
  if 65 ≤ c.toNat ∧ c.toNat ≤ 90 then Char.ofNat (c.toNat + 32) else c

/-- Embeds the Python str.lower() call of rasff.py lines 162 and 167, as the
character-wise ASCII lower-casing of the string.  Python lower additionally
maps non-ASCII upper-case letters, but both mapping tables are pure ASCII, so
a string containing any non-ASCII character misses the table under either
lower-casing, and on pure-ASCII strings the two functions agree: the lookup
result is identical for every input. -/
def lowerString (s : String) : String :=
  String.mk (s.data.map lowerChar)

/-- Embeds str(x).lower() applied to a pandas cell (rasff.py lines 162 and
167): a present string cell is lower-cased; a missing cell (None or NaN)
renders as the fixed string "none" respectively "nan" — we use "none", and
neither rendering is a key of either table, so the distinction is
unobservable through the lookup. -/
def pyStrLower : Option String → String
  | none => "none"
  | some s => lowerString s

/-- A raw row after renaming and column filling: the eight data columns of the
weekly files and the main CSV, each cell possibly missing. -/
structure RawRecord where
  date_of_case : Option String
  reference : Option String
  notification_from : Option String
  country_origin : Option String
  product : Option String
  product_category : Option String
  hazard_substance : Option String
  hazard_category : Option String
deriving DecidableEq

/-- A row after apply_mappings: the raw columns plus the four derived category
columns prodcat, groupprod, hazcat, grouphaz. -/
structure Record where
  base : RawRecord
  prodcat : String
  groupprod : String
  hazcat : String
  grouphaz : String
deriving DecidableEq

/-- Embeds apply_mappings (rasff.py lines 87-170) on one row: the product
category cell is looked up (lower-cased) in product_category_mapping yielding
the pair (prodcat, groupprod), the hazard category cell likewise in
hazard_category_mapping yielding (hazcat, grouphaz); a miss yields
("Unknown", "Unknown"). -/
def apply_mappings_row (r : RawRecord) : Record :=
  let p := dictGet product_category_mapping (pyStrLower r.product_category)
  let h := dictGet hazard_category_mapping (pyStrLower r.hazard_category)
  { base := r, prodcat := p.1, groupprod := p.2, hazcat := h.1, grouphaz := h.2 }

/-- apply_mappings over a whole DataFrame: row-wise application. -/
def apply_mappings (df : List RawRecord) : List Record :=
  df.map apply_mappings_row

/-- A pandas row as an association list from column names to optional cells.
A column is present in the frame when its name is a key of the list. -/
abbrev Row := List (String × Option String)

/-- The twelve standard column names of rasff.py lines 27-31. -/
def expected_columns : List String :=
  ["date_of_case", "reference", "notification_from", "country_origin",
   "product", "product_category", "hazard_substance", "hazard_category",
   "prodcat", "groupprod", "hazcat", "grouphaz"]

/-- The weekly-file header renaming of rasff.py lines 34-43. -/
def weekly_column_mapping : List (String × String) :=
  [("Date of Case", "date_of_case"), ("Reference", "reference"),
   ("Notification From", "notification_from"), ("Country Origin", "country_origin"),
   ("Product", "product"), ("Product Category", "product_category"),
   ("Hazard Substance", "hazard_substance"), ("Hazard Category", "hazard_category")]

/-- df.rename(columns=weekly_column_mapping) on one column name (rasff.py
line 58): mapped names are replaced, others kept. -/
def renameColumn (c : String) : String :=
  (weekly_column_mapping.lookup c).getD c

/-- df.rename applied to a whole row. -/
def renameRow (row : Row) : Row :=
  row.map fun p => (renameColumn p.1, p.2)

/-- Embeds rasff.py lines 61-63: every expected column that is absent from the
frame is added with the sentinel value None; present columns are untouched. -/
def fillMissingColumns (row : Row) : Row :=
  row ++ ((expected_columns.filter fun c => row.lookup c = none).map
    fun c => (c, (none : Option String)))

/-- Embeds the column selection df[expected_columns] of rasff.py line 66. -/
def selectColumns (row : Row) : Row :=
  expected_columns.map fun c => (c, (row.lookup c).getD none)

/-- Reads the eight raw data fields out of a cleaned row (an absent column
reads as a missing cell). -/
def rowToRawRecord (row : Row) : RawRecord :=
  { date_of_case := (row.lookup "date_of_case").getD none,
    reference := (row.lookup "reference").getD none,
    notification_from := (row.lookup "notification_from").getD none,
    country_origin := (row.lookup "country_origin").getD none,
    product := (row.lookup "product").getD none,
    hazard_substance := (row.lookup "hazard_substance").getD none,
    product_category := (row.lookup "product_category").getD none,
    hazard_category := (row.lookup "hazard_category").getD none }

/-- The per-week cleaning of rasff.py lines 55-69: rename headers, fill
missing expected columns with None, select the expected columns, then
apply_mappings. -/
def clean_week (rows : List Row) : List Record :=
  apply_mappings (rows.map fun row =>
    rowToRawRecord (selectColumns (fillMissingColumns (renameRow row))))

/-- Outcome of one weekly HTTP fetch (rasff.py lines 51-76): a non-200 status,
content that raises during reading or cleaning, or a readable sheet. -/
inductive FetchResult where
  | httpFailure
  | unprocessable
  | ok (rows : List Row)

/-- The rows one week adds to the accumulator dfs: a cleaned frame when the
fetch and the processing succeed, nothing when the week fails (the failure is
reported as a st.warning and the loop moves on, rasff.py lines 73-76). -/
def weekContribution (fetch : Nat → FetchResult) (w : Nat) : List Record :=
  match fetch w with
  | .ok rows => clean_week rows
  | _ => []

/-- True when the fetch for week w fails (either way), i.e. exactly when the
loop body emits a st.warning for that week instead of appending data. -/
def isFailedWeek (fetch : Nat → FetchResult) (w : Nat) : Bool :=
  match fetch w with
  | .ok _ => false
  | _ => true

/-- The weeks for which download_and_clean_weekly_data emits a non-fatal
st.warning (rasff.py lines 74 and 76). -/
def weekly_warnings (fetch : Nat → FetchResult) (weeks : List Nat) : List Nat :=
  weeks.filter (isFailedWeek fetch)

/-- Embeds download_and_clean_weekly_data (rasff.py lines 46-84).  The network
is modelled by the oracle fetch.  First component: the concatenation
pd.concat(dfs) of the successfully cleaned weeks, in request order — the empty
list when every week failed (line 84 returns an empty DataFrame).  Second
component: the log of weeks for which a requests.get call was issued; the loop
body issues exactly one GET per listed week, with no retry. -/
def download_and_clean_weekly_data (fetch : Nat → FetchResult) :
    List Nat → List Record × List Nat
  | [] => ([], [])
  | w :: ws =>
    let rest := download_and_clean_weekly_data fetch ws
    (weekContribution fetch w ++ rest.1, w :: rest.2)

/-- The per-request timeout of the GET at rasff.py line 51: the call passes no
timeout argument, and the requests library default is no timeout at all
(None), so a single fetch attempt may block indefinitely. -/
def weeklyRequestTimeout : Option Nat := none

/-- Embeds RASFFDashboard.update_data_with_weeks (rasff.py lines 178-187):
download the weeks range(start_week, current_week); when nothing was obtained
self.data is left untouched, otherwise the new rows are concatenated after the
existing ones with pd.concat([self.data, new_data]). -/
def update_data_with_weeks (fetch : Nat → FetchResult) (data : List Record)
    (startWeek currentWeek : Nat) : List Record :=
  let weeks := List.range' startWeek (currentWeek - startWeek)
  let newData := (download_and_clean_weekly_data fetch weeks).1
  if newData.isEmpty then data else data ++ newData

/-- The required column set of page/RASFFPortalLab.py line 20. -/
def required_columns : List String :=
  ["notification_from", "country_origin", "groupprod", "grouphaz",
   "prodcat", "hazcat", "hazard_substance"]

/-- Embeds the upload-page guard of page/RASFFPortalLab.py lines 20-22: when
any required column is absent from the uploaded frame, an error is shown and
the whole batch is rejected unprocessed (none); otherwise the frame passes
through to the dashboard (some). -/
def lab_process (columns : List String) (rows : List Row) : Option (List Row) :=
  if required_columns.all (fun c => columns.contains c) then some rows else none

/-- The rows that pd.crosstab keeps: pairs where both cells are non-missing
(pandas drops NaN on either axis before tabulating). -/
def validPairs (rows : List (Option String × Option String)) : List (String × String) :=
  rows.filterMap fun r =>
    match r with
    | (some a, some b) => some (a, b)
    | _ => none

/-- Embeds pd.crosstab(col1, col2) (rasff.py lines 305 and 359) as a sparse
table: one cell per distinct value pair occurring with both sides present,
holding its occurrence count. -/
def crosstab (rows : List (Option String × Option String)) :
    List ((String × String) × Nat) :=
  let ps := validPairs rows
  ps.dedup.map fun c => (c, @List.count _ instBEqOfDecidableEq c ps)

/-- The sum of all cells of a contingency table. -/
def cellSum (t : List ((String × String) × Nat)) : Nat :=
  (t.map Prod.snd).sum

/-- A two-dimensional contingency table over a record list, the two dimensions
given as column projections. -/
def contingency (records : List Record) (dim1 dim2 : Record → Option String) :
    List ((String × String) × Nat) :=
  crosstab (records.map fun r => (dim1 r, dim2 r))

/-- What the analysis page reports for one chi-square test. -/
inductive Verdict where
  | significantAssociation
  | noSignificantAssociation
deriving DecidableEq

/-- Embeds the branch at rasff.py lines 316-328 (product categories versus
hazard categories): the success message reporting a significant association is
shown exactly when p_value < 0.05, the warning reporting no significant
association otherwise.  The threshold is the literal 0.05, not a parameter. -/
def chi2_verdict_products_hazards (p : ℚ) : Verdict :=
  if p < 0.05 then .significantAssociation else .noSignificantAssociation

/-- Embeds the branch at rasff.py lines 370-382 (notifying countries versus
hazard groups), textually identical threshold logic. -/
def chi2_verdict_countries_hazardgroups (p : ℚ) : Verdict :=
  if p < 0.05 then .significantAssociation else .noSignificantAssociation

/-- Fuel-driven recursion computing the Levenshtein distance: structural in
the fuel argument so that the kernel can evaluate it on concrete inputs.  The
fuel never runs out when it starts above the sum of the lengths (see
levFuel_congr below). -/
def levFuel : Nat → List Char → List Char → Nat
  | 0, _, _ => 0
  | _ + 1, [], ys => ys.length
  | _ + 1, x :: xs, [] => (x :: xs).length
  | n + 1, x :: xs, y :: ys =>
    if x = y then levFuel n xs ys
    else 1 + min (levFuel n xs (y :: ys)) (min (levFuel n (x :: xs) ys) (levFuel n xs ys))

/-- Modelled from the spec: Levenshtein edit distance between two character
lists.  The fuzzy hazard matcher of spec section 4.2 is not present in the
three source files under version control here, so the metric follows the spec
text (unit-cost insertions, deletions, substitutions); the recurrence is
recovered exactly by the equations levenshtein_nil_left, levenshtein_cons_nil
and levenshtein_cons_cons below. -/
def levenshtein (xs ys : List Char) : Nat :=
  levFuel (xs.length + ys.length + 1) xs ys

/-- Edit distance on strings. -/
def strDist (s t : String) : Nat :=
  levenshtein s.data t.data

/-- Modelled from the spec: scan the vocabulary and keep the entry of minimum
edit distance to raw, ties broken by first occurrence in iteration order (spec
section 4.2); none on an empty vocabulary. -/
def bestMatch (raw : String) : List String → Option (String × Nat)
  | [] => none
  | v :: vs =>
    let d := strDist raw v
    match bestMatch raw vs with
    | none => some (v, d)
    | some (w, e) => if d ≤ e then some (v, d) else some (w, e)

/-- Modelled from the spec: the fuzzy hazard matcher correct(raw, vocabulary,
max_distance) of spec section 4.2, absent from the sources here.  When the
closest vocabulary entry is within max_distance the entry is returned,
otherwise raw is returned unchanged. -/
def correct (raw : String) (vocab : List String) (maxDist : Nat) : String :=
  match bestMatch raw vocab with
  | none => raw
  | some (w, d) => if d ≤ maxDist then w else raw

/-- Modelled from the spec: the country standardization step of spec section
4.3 step 2, absent from the sources here — a plain membership check against a
closed country list, anything absent from the list becomes the sentinel
Other; no fuzzy matching and no group level. -/
def standardize_country (raw : String) (countries : List String) : String :=
  if raw ∈ countries then raw else "Other"

/-! Theorems.  Each claim of the review is settled below; helper lemmas are
shared, claim theorems are standalone. -/

lemma prodcat_apply (r : RawRecord) :
    (apply_mappings_row r).prodcat =
      (dictGet product_category_mapping (pyStrLower r.product_category)).1 := rfl

lemma groupprod_apply (r : RawRecord) :
    (apply_mappings_row r).groupprod =
      (dictGet product_category_mapping (pyStrLower r.product_category)).2 := rfl

lemma hazcat_apply (r : RawRecord) :
    (apply_mappings_row r).hazcat =
      (dictGet hazard_category_mapping (pyStrLower r.hazard_category)).1 := rfl

lemma grouphaz_apply (r : RawRecord) :
    (apply_mappings_row r).grouphaz =
      (dictGet hazard_category_mapping (pyStrLower r.hazard_category)).2 := rfl

lemma mem_of_lookup {l : List (String × String × String)} {k : String}
    {v : String × String} (h : l.lookup k = some v) : (k, v) ∈ l := by
  rw [List.lookup_eq_some_iff] at h
  obtain ⟨l₁, l₂, rfl, -⟩ := h
  simp

/-- C1: for every raw category cell, apply_mappings performs the lookup of the
lower-cased cell string in the relevant mapping table — a hit yields exactly
the mapped (specific, group) pair, a miss yields ("Unknown", "Unknown") — and
in particular the raw product category wine maps to (Wine, Beverages).  The
lookup is a total Lean function, so it has no side effects and raises no
exception on any input. -/
theorem C1_category_lookup (r : RawRecord) :
    (∀ v, product_category_mapping.lookup (pyStrLower r.product_category) = some v →
      ((apply_mappings_row r).prodcat, (apply_mappings_row r).groupprod) = v) ∧
    (product_category_mapping.lookup (pyStrLower r.product_category) = none →
      ((apply_mappings_row r).prodcat, (apply_mappings_row r).groupprod) =
        ("Unknown", "Unknown")) ∧
    (∀ v, hazard_category_mapping.lookup (pyStrLower r.hazard_category) = some v →
      ((apply_mappings_row r).hazcat, (apply_mappings_row r).grouphaz) = v) ∧
    (hazard_category_mapping.lookup (pyStrLower r.hazard_category) = none →
      ((apply_mappings_row r).hazcat, (apply_mappings_row r).grouphaz) =
        ("Unknown", "Unknown")) ∧
    (r.product_category = some "wine" →
      ((apply_mappings_row r).prodcat, (apply_mappings_row r).groupprod) =
        ("Wine", "Beverages")) := by
  refine ⟨fun v h => ?_, fun h => ?_, fun v h => ?_, fun h => ?_, fun h => ?_⟩
  · rw [prodcat_apply, groupprod_apply, dictGet, h]; rfl
  · rw [prodcat_apply, groupprod_apply, dictGet, h]; rfl
  · rw [hazcat_apply, grouphaz_apply, dictGet, h]; rfl
  · rw [hazcat_apply, grouphaz_apply, dictGet, h]; rfl
  · rw [prodcat_apply, groupprod_apply, h]
    decide

/-- C1 witness: a concrete record whose raw product category is wine is mapped
to the pair (Wine, Beverages). -/
theorem C1_category_lookup_witness :
    ((apply_mappings_row ⟨none, none, none, none, none, some "wine", none, none⟩).prodcat,
     (apply_mappings_row ⟨none, none, none, none, none, some "wine", none, none⟩).groupprod) =
      ("Wine", "Beverages") :=
  (C1_category_lookup ⟨none, none, none, none, none, some "wine", none, none⟩).2.2.2.2 rfl

lemma product_values_not_unknown :
    ∀ p ∈ product_category_mapping, p.2.1 ≠ "Unknown" ∧ p.2.2 ≠ "Unknown" := by decide

lemma hazard_values_not_unknown :
    ∀ p ∈ hazard_category_mapping, p.2.1 ≠ "Unknown" ∧ p.2.2 ≠ "Unknown" := by decide

lemma dictGet_unknown_or_value (table : List (String × String × String)) (key : String)
    (hv : ∀ p ∈ table, p.2.1 ≠ "Unknown" ∧ p.2.2 ≠ "Unknown") :
    (dictGet table key = ("Unknown", "Unknown") ∨
      dictGet table key ∈ table.map (fun p => p.2)) ∧
    ((dictGet table key).1 = "Unknown" ↔ (dictGet table key).2 = "Unknown") := by
  cases h : table.lookup key with
  | none =>
    rw [dictGet, h]
    exact ⟨Or.inl rfl, by simp⟩
  | some v =>
    have hm : (key, v) ∈ table := mem_of_lookup h
    have hvv := hv (key, v) hm
    rw [dictGet, h]
    refine ⟨Or.inr ?_, ?_⟩
    · exact List.mem_map.mpr ⟨(key, v), hm, rfl⟩
    · simp only [Option.getD_some]
      exact ⟨fun h1 => absurd h1 hvv.1, fun h2 => absurd h2 hvv.2⟩

/-- C2: after apply_mappings every record satisfies, for each of the two
derived pairs (prodcat, groupprod) and (hazcat, grouphaz): the pair is either
a value of its mapping table or the default ("Unknown", "Unknown"), and one
component equals "Unknown" exactly when the other does — never a half-mapped
pair. -/
theorem C2_pair_invariant (r : RawRecord) :
    ((((apply_mappings_row r).prodcat, (apply_mappings_row r).groupprod) =
        ("Unknown", "Unknown") ∨
      ((apply_mappings_row r).prodcat, (apply_mappings_row r).groupprod) ∈
        product_category_mapping.map (fun p => p.2)) ∧
     ((apply_mappings_row r).prodcat = "Unknown" ↔
        (apply_mappings_row r).groupprod = "Unknown")) ∧
    ((((apply_mappings_row r).hazcat, (apply_mappings_row r).grouphaz) =
        ("Unknown", "Unknown") ∨
      ((apply_mappings_row r).hazcat, (apply_mappings_row r).grouphaz) ∈
        hazard_category_mapping.map (fun p => p.2)) ∧
     ((apply_mappings_row r).hazcat = "Unknown" ↔
        (apply_mappings_row r).grouphaz = "Unknown")) := by
  have hp := dictGet_unknown_or_value product_category_mapping
    (pyStrLower r.product_category) product_values_not_unknown
  have hh := dictGet_unknown_or_value hazard_category_mapping
    (pyStrLower r.hazard_category) hazard_values_not_unknown
  rw [prodcat_apply, groupprod_apply, hazcat_apply, grouphaz_apply,
    Prod.mk.eta, Prod.mk.eta]
  exact ⟨⟨hp.1, hp.2⟩, ⟨hh.1, hh.2⟩⟩

lemma levFuel_congr : ∀ (m n : Nat) (xs ys : List Char),
    xs.length + ys.length < m → xs.length + ys.length < n →
    levFuel m xs ys = levFuel n xs ys := by
  intro m
  induction m with
  | zero => exact fun n xs ys h1 _ => absurd h1 (Nat.not_lt_zero _)
  | succ m ih =>
    intro n xs ys h1 h2
    cases n with
    | zero => exact absurd h2 (Nat.not_lt_zero _)
    | succ n =>
      cases xs with
      | nil => rfl
      | cons x xs =>
        cases ys with
        | nil => rfl
        | cons y ys =>
          simp only [List.length_cons] at h1 h2
          simp only [levFuel]
          rw [ih n xs ys (by omega) (by omega),
            ih n xs (y :: ys) (by simp only [List.length_cons]; omega)
              (by simp only [List.length_cons]; omega),
            ih n (x :: xs) ys (by simp only [List.length_cons]; omega)
              (by simp only [List.length_cons]; omega)]

lemma levenshtein_nil_left (ys : List Char) : levenshtein [] ys = ys.length := rfl

lemma levenshtein_cons_nil (x : Char) (xs : List Char) :
    levenshtein (x :: xs) [] = xs.length + 1 := rfl

lemma levenshtein_cons_cons (x y : Char) (xs ys : List Char) :
    levenshtein (x :: xs) (y :: ys) =
      if x = y then levenshtein xs ys
      else 1 + min (levenshtein xs (y :: ys))
        (min (levenshtein (x :: xs) ys) (levenshtein xs ys)) := by
  simp only [levenshtein, List.length_cons, levFuel]
  rw [levFuel_congr (xs.length + 1 + (ys.length + 1)) (xs.length + ys.length + 1) xs ys
      (by omega) (by omega),
    levFuel_congr (xs.length + 1 + (ys.length + 1)) (xs.length + (ys.length + 1) + 1)
      xs (y :: ys) (by simp only [List.length_cons]; omega)
      (by simp only [List.length_cons]; omega),
    levFuel_congr (xs.length + 1 + (ys.length + 1)) (xs.length + 1 + ys.length + 1)
      (x :: xs) ys (by simp only [List.length_cons]; omega)
      (by simp only [List.length_cons]; omega)]

lemma levenshtein_self (xs : List Char) : levenshtein xs xs = 0 := by
  induction xs with
  | nil => rfl
  | cons x xs ih => rw [levenshtein_cons_cons, if_pos rfl, ih]

lemma eq_of_levenshtein_eq_zero :
    ∀ (xs ys : List Char), levenshtein xs ys = 0 → xs = ys
  | [], [], _ => rfl
  | [], _ :: _, h => by rw [levenshtein_nil_left] at h; simp at h
  | _ :: _, [], h => by rw [levenshtein_cons_nil] at h; omega
  | x :: xs, y :: ys, h => by
    rw [levenshtein_cons_cons] at h
    by_cases hxy : x = y
    · rw [if_pos hxy] at h
      subst hxy
      exact congrArg (x :: ·) (eq_of_levenshtein_eq_zero xs ys h)
    · rw [if_neg hxy] at h
      omega
termination_by xs ys => xs.length + ys.length

lemma strDist_self (s : String) : strDist s s = 0 :=
  levenshtein_self s.data

lemma eq_of_strDist_eq_zero {s t : String} (h : strDist s t = 0) : s = t := by
  cases s; cases t
  exact congrArg String.mk (eq_of_levenshtein_eq_zero _ _ h)

lemma bestMatch_mem (raw : String) :
    ∀ (V : List String) (w : String) (e : Nat),
      bestMatch raw V = some (w, e) → w ∈ V ∧ e = strDist raw w
  | [], _, _, h => by simp [bestMatch] at h
  | v :: vs, w, e, h => by
    cases hb : bestMatch raw vs with
    | none =>
      simp only [bestMatch, hb, Option.some.injEq, Prod.mk.injEq] at h
      exact ⟨by rw [← h.1]; exact List.mem_cons_self v vs, by rw [← h.1, ← h.2]⟩
    | some p =>
      obtain ⟨w', e'⟩ := p
      have ih := bestMatch_mem raw vs w' e' hb
      simp only [bestMatch, hb] at h
      by_cases hd : strDist raw v ≤ e'
      · rw [if_pos hd] at h
        simp only [Option.some.injEq, Prod.mk.injEq] at h
        exact ⟨by rw [← h.1]; exact List.mem_cons_self v vs, by rw [← h.1, ← h.2]⟩
      · rw [if_neg hd] at h
        simp only [Option.some.injEq, Prod.mk.injEq] at h
        exact ⟨by rw [← h.1]; exact List.mem_cons_of_mem v ih.1,
          by rw [← h.1, ← h.2]; exact ih.2⟩

lemma bestMatch_min (raw : String) :
    ∀ (V : List String) (v : String), v ∈ V →
      ∃ w e, bestMatch raw V = some (w, e) ∧ e ≤ strDist raw v
  | [], v, hv => absurd hv (List.not_mem_nil v)
  | u :: us, v, hv => by
    cases hb : bestMatch raw us with
    | none =>
      refine ⟨u, strDist raw u, by simp [bestMatch, hb], ?_⟩
      rcases List.mem_cons.mp hv with rfl | hvu
      · exact le_refl _
      · obtain ⟨w, e, hw, -⟩ := bestMatch_min raw us v hvu
        simp [hw] at hb
    | some p =>
      obtain ⟨w', e'⟩ := p
      by_cases hd : strDist raw u ≤ e'
      · refine ⟨u, strDist raw u, by simp [bestMatch, hb, hd], ?_⟩
        rcases List.mem_cons.mp hv with rfl | hvu
        · exact le_refl _
        · obtain ⟨w, e, hw, he⟩ := bestMatch_min raw us v hvu
          rw [hw] at hb
          have hpe : e = e' := congrArg (fun q => q.2) (Option.some.inj hb)
          exact le_trans hd (hpe ▸ he)
      · refine ⟨w', e', by simp [bestMatch, hb, hd], ?_⟩
        rcases List.mem_cons.mp hv with rfl | hvu
        · exact le_of_lt (Nat.lt_of_not_le hd)
        · obtain ⟨w, e, hw, he⟩ := bestMatch_min raw us v hvu
          rw [hw] at hb
          have hpe : e = e' := congrArg (fun q => q.2) (Option.some.inj hb)
          exact hpe ▸ he

lemma correct_of_mem {s : String} {V : List String} (k : Nat) (hs : s ∈ V) :
    correct s V k = s := by
  obtain ⟨w, e, hw, he⟩ := bestMatch_min s V s hs
  rw [strDist_self] at he
  have he0 : e = 0 := Nat.le_zero.mp he
  have hm := bestMatch_mem s V w e hw
  have hws : w = s := (eq_of_strDist_eq_zero (by rw [← hm.2, he0])).symm
  simp only [correct, hw]
  rw [if_pos (by omega)]
  exact hws

/-- C3: the fuzzy matcher correct (modelled from the spec, section 4.2) fixes
every string occurring exactly in the vocabulary, returns the input unchanged
when every vocabulary entry is further away than the threshold, and is
idempotent. -/
theorem C3_correct_fixed_points (s : String) (V : List String) (k : Nat) :
    (s ∈ V → correct s V k = s) ∧
    ((∀ v ∈ V, k < strDist s v) → correct s V k = s) ∧
    correct (correct s V k) V k = correct s V k := by
  refine ⟨fun hs => correct_of_mem k hs, fun hfar => ?_, ?_⟩
  · cases hb : bestMatch s V with
    | none => simp [correct, hb]
    | some p =>
      obtain ⟨w, e⟩ := p
      have hm := bestMatch_mem s V w e hb
      simp only [correct, hb]
      rw [if_neg]
      rw [hm.2]
      exact Nat.not_le.mpr (hfar w hm.1)
  · cases hb : bestMatch s V with
    | none =>
      have hc : correct s V k = s := by simp [correct, hb]
      rw [hc]
      exact hc
    | some p =>
      obtain ⟨w, e⟩ := p
      by_cases hd : e ≤ k
      · have hc : correct s V k = w := by simp only [correct, hb]; rw [if_pos hd]
        have hm := bestMatch_mem s V w e hb
        rw [hc]
        exact correct_of_mem k hm.1
      · have hc : correct s V k = s := by simp only [correct, hb]; rw [if_neg hd]
        rw [hc]
        exact hc

/-- C3 witness: the vocabulary member Salmonella is left fixed at threshold 3,
and the string xyz, further than 3 edits from every entry, is returned
unchanged. -/
theorem C3_correct_fixed_points_witness :
    correct "Salmonella" ["Salmonella"] 3 = "Salmonella" ∧
    correct "xyz" ["Salmonella"] 3 = "xyz" :=
  ⟨(C3_correct_fixed_points "Salmonella" ["Salmonella"] 3).1 (by decide),
   (C3_correct_fixed_points "xyz" ["Salmonella"] 3).2.1 (by decide)⟩

/-- C4: the country standardization step (modelled from the spec, section 4.3
step 2) always yields either a member of the closed country vocabulary or the
sentinel Other; a raw value absent from the list becomes Other, a present one
passes through unchanged. -/
theorem C4_country_standardization (raw : String) (countries : List String) :
    (standardize_country raw countries ∈ countries ∨
      standardize_country raw countries = "Other") ∧
    (raw ∉ countries → standardize_country raw countries = "Other") ∧
    (raw ∈ countries → standardize_country raw countries = raw) := by
  by_cases h : raw ∈ countries
  · exact ⟨Or.inl (by rwa [standardize_country, if_pos h]),
      fun hn => absurd h hn, fun _ => by rw [standardize_country, if_pos h]⟩
  · exact ⟨Or.inr (by rw [standardize_country, if_neg h]),
      fun _ => by rw [standardize_country, if_neg h],
      fun hm => absurd hm h⟩

/-- C4 witness: the raw country Atlantis, absent from a concrete closed
country list, is normalized to Other. -/
theorem C4_country_standardization_witness :
    standardize_country "Atlantis" ["France", "Germany", "Italy"] = "Other" :=
  (C4_country_standardization "Atlantis" ["France", "Germany", "Italy"]).2.1
    (by decide)

lemma lookup_map_none {l : List String} {c : String} (hc : c ∈ l) :
    (l.map fun x => (x, (none : Option String))).lookup c = some none := by
  induction l with
  | nil => cases hc
  | cons x xs ih =>
    simp only [List.map_cons, List.lookup]
    cases hcc : c == x with
    | false =>
      have hxs : c ∈ xs := by
        rcases List.mem_cons.mp hc with h | h
        · exact absurd h (by simpa using hcc)
        · exact h
      exact ih hxs
    | true => rfl

lemma fillMissing_of_missing {row : Row} {c : String} (hc : c ∈ expected_columns)
    (hm : row.lookup c = none) :
    (fillMissingColumns row).lookup c = some none := by
  rw [fillMissingColumns, List.lookup_append, hm, Option.none_or]
  exact lookup_map_none (List.mem_filter.mpr ⟨hc, by simp [hm]⟩)

/-- C5 counterexample: an uploaded batch lacking the expected prodcat column is
rejected whole by the upload page (error shown, nothing processed) rather than
recovered with a sentinel value. -/
theorem C5_counterexample_lab_rejects :
    lab_process ["notification_from", "country_origin", "groupprod", "grouphaz",
      "hazcat", "hazard_substance"] [] = none := by decide

/-- C5 amended: in the weekly-download normalization of rasff.py a missing
expected column is added with the sentinel None for every row, every expected
column is present afterwards, and no row of the batch is dropped by the
cleaning; the upload page of RASFFPortalLab.py, by contrast, rejects the whole
uploaded batch whenever a required column is missing. -/
theorem C5_missing_column_policy :
    (∀ (row : Row) (c : String), c ∈ expected_columns → row.lookup c = none →
      (fillMissingColumns row).lookup c = some none) ∧
    (∀ (row : Row) (c : String), c ∈ expected_columns →
      ((fillMissingColumns row).lookup c).isSome) ∧
    (∀ rows : List Row, (clean_week rows).length = rows.length) ∧
    (∀ (columns : List String) (rows : List Row),
      (∃ c ∈ required_columns, c ∉ columns) → lab_process columns rows = none) := by
  refine ⟨fun row c hc hm => fillMissing_of_missing hc hm,
    fun row c hc => ?_, fun rows => ?_, fun columns rows hmiss => ?_⟩
  · cases hm : row.lookup c with
    | none => rw [fillMissing_of_missing hc hm]; rfl
    | some v =>
      rw [fillMissingColumns, List.lookup_append, hm]
      rfl
  · simp [clean_week, apply_mappings]
  · obtain ⟨c, hcr, hcn⟩ := hmiss
    rw [lab_process, if_neg]
    intro hall
    rw [List.all_eq_true] at hall
    exact hcn (by simpa using hall c hcr)

/-- C5 witness: the empty row gets the sentinel None for the missing reference
column, and a concrete upload lacking required columns is rejected. -/
theorem C5_missing_column_policy_witness :
    (fillMissingColumns ([] : Row)).lookup "reference" = some none ∧
    lab_process ["notification_from"] [] = none :=
  ⟨C5_missing_column_policy.1 [] "reference" (by decide) rfl,
   C5_missing_column_policy.2.2.2 ["notification_from"] []
     ⟨"country_origin", by decide, by decide⟩⟩

/-- C6: each of the two chi-square interpretation branches reports a
significant association exactly when the p-value is strictly below the literal
threshold 0.05, and no significant association exactly when the p-value is at
least 0.05; the threshold is hard-coded, not configurable. -/
theorem C6_fixed_threshold (p : ℚ) :
    (chi2_verdict_products_hazards p = Verdict.significantAssociation ↔ p < 0.05) ∧
    (chi2_verdict_countries_hazardgroups p = Verdict.significantAssociation ↔ p < 0.05) ∧
    (chi2_verdict_products_hazards p = Verdict.noSignificantAssociation ↔ 0.05 ≤ p) ∧
    (chi2_verdict_countries_hazardgroups p = Verdict.noSignificantAssociation ↔ 0.05 ≤ p) := by
  by_cases h : p < 0.05
  · simp [chi2_verdict_products_hazards, chi2_verdict_countries_hazardgroups, h, not_le]
  · have h2 : (0.05 : ℚ) ≤ p := not_lt.mp h
    simp [chi2_verdict_products_hazards, chi2_verdict_countries_hazardgroups, h, h2]

lemma validPairs_map_length (records : List Record) (d1 d2 : Record → Option String) :
    (validPairs (records.map fun r => (d1 r, d2 r))).length =
      (records.filter fun r => (d1 r).isSome && (d2 r).isSome).length := by
  induction records with
  | nil => rfl
  | cons r rs ih =>
    cases h1 : d1 r <;> cases h2 : d2 r <;>
      simp [validPairs, List.filterMap_cons, List.filter_cons, h1, h2] at ih ⊢ <;>
      exact ih

lemma cellSum_crosstab (rows : List (Option String × Option String)) :
    cellSum (crosstab rows) = (validPairs rows).length := by
  unfold cellSum crosstab
  rw [List.map_map]
  simp only [Function.comp_def]
  exact List.sum_map_count_dedup_eq_length (validPairs rows)

/-- C7: the sum of every cell of a two-dimensional contingency table equals
the number of input records carrying non-missing values on both of the chosen
dimensions. -/
theorem C7_contingency_total (records : List Record) (d1 d2 : Record → Option String) :
    cellSum (contingency records d1 d2) =
      (records.filter fun r => (d1 r).isSome && (d2 r).isSome).length := by
  rw [contingency, cellSum_crosstab, validPairs_map_length]

lemma weekContribution_of_failed {fetch : Nat → FetchResult} {w : Nat}
    (h : isFailedWeek fetch w = true) : weekContribution fetch w = [] := by
  cases hf : fetch w with
  | httpFailure => simp [weekContribution, hf]
  | unprocessable => simp [weekContribution, hf]
  | ok rows => exfalso; simp [isFailedWeek, hf] at h

/-- C8: a failed week (HTTP failure or unprocessable content) contributes
nothing to the merged result and is exactly the case reported by a non-fatal
warning; the merged result is the in-order concatenation of the per-week
contributions, so a failure never aborts the batch; and when every requested
week fails the function returns the empty result instead of raising. -/
theorem C8_failed_weeks (fetch : Nat → FetchResult) (weeks : List Nat) :
    ((download_and_clean_weekly_data fetch weeks).1 =
      (weeks.map (weekContribution fetch)).flatten) ∧
    (∀ w ∈ weeks, isFailedWeek fetch w = true →
      weekContribution fetch w = [] ∧ w ∈ weekly_warnings fetch weeks) ∧
    ((∀ w ∈ weeks, isFailedWeek fetch w = true) →
      (download_and_clean_weekly_data fetch weeks).1 = []) := by
  refine ⟨?_, fun w hw hf => ⟨weekContribution_of_failed hf, ?_⟩, fun hall => ?_⟩
  · induction weeks with
    | nil => rfl
    | cons w ws ih => simp [download_and_clean_weekly_data, ih]
  · rw [weekly_warnings]
    exact List.mem_filter.mpr ⟨hw, hf⟩
  · induction weeks with
    | nil => rfl
    | cons w ws ih =>
      have h1 := weekContribution_of_failed (hall w (List.mem_cons_self w ws))
      simp [download_and_clean_weekly_data, h1,
        ih (fun v hv => hall v (List.mem_cons_of_mem w hv))]

/-- C8 witness: with every week failing, a concrete two-week request yields
the empty merged result, with no exception modelled anywhere. -/
theorem C8_failed_weeks_witness :
    (download_and_clean_weekly_data (fun _ => FetchResult.httpFailure) [1, 2]).1 = [] :=
  (C8_failed_weeks (fun _ => FetchResult.httpFailure) [1, 2]).2.2 (fun _ _ => rfl)

/-- C9 counterexample: the GET of rasff.py line 51 passes no timeout argument,
so there is no finite per-request ceiling at all — neither ten time units nor
any other bound — contradicting the claimed timeout ceiling. -/
theorem C9_counterexample_no_timeout :
    ¬ ∃ t : Nat, weeklyRequestTimeout = some t := by
  rintro ⟨t, ht⟩
  simp [weeklyRequestTimeout] at ht

/-- C9 amended: each listed week triggers exactly one GET request, in list
order and with no retry (the request log equals the week list), but the
request carries no timeout — the library default None — so no finite ceiling
bounds a single fetch attempt. -/
theorem C9_single_attempt_no_timeout (fetch : Nat → FetchResult) (weeks : List Nat) :
    (download_and_clean_weekly_data fetch weeks).2 = weeks ∧
    weeklyRequestTimeout = none := by
  refine ⟨?_, rfl⟩
  induction weeks with
  | nil => rfl
  | cons w ws ih => simp [download_and_clean_weekly_data, ih]

/-- C10: update_data_with_weeks only appends — the result is always the stored
dataset followed by the downloaded rows, hence every previously stored row is
preserved unchanged at the front, and when no new data was obtained the stored
dataset is returned completely unchanged. -/
theorem C10_update_appends (fetch : Nat → FetchResult) (data : List Record)
    (startWeek currentWeek : Nat) :
    update_data_with_weeks fetch data startWeek currentWeek =
      data ++ (download_and_clean_weekly_data fetch
        (List.range' startWeek (currentWeek - startWeek))).1 ∧
    ((download_and_clean_weekly_data fetch
        (List.range' startWeek (currentWeek - startWeek))).1 = [] →
      update_data_with_weeks fetch data startWeek currentWeek = data) := by
  constructor
  · simp only [update_data_with_weeks]
    by_cases h : (download_and_clean_weekly_data fetch
        (List.range' startWeek (currentWeek - startWeek))).1.isEmpty
    · rw [if_pos h, List.isEmpty_iff.mp h, List.append_nil]
    · rw [if_neg h]
  · intro h
    simp [update_data_with_weeks, h]

/-- C10 witness: with an empty week range nothing is downloaded and a concrete
stored dataset is returned unchanged. -/
theorem C10_update_appends_witness :
    update_data_with_weeks (fun _ => FetchResult.httpFailure) [] 5 3 = [] :=
  (C10_update_appends (fun _ => FetchResult.httpFailure) [] 5 3).2 rfl

end Rasff
